import Mathlib

/-!
Verification of the statistics/overlay post-processing pipeline of the
Brain-Tumor-Detection repository.

The presentation layer (React client) is embedded from the JavaScript
sources under `client/src`:
* `TumorStatistics.js` — the statistics cards component;
* `SegmentationResult.js` — the viewer with zoom / rotate controls;
* `App.js` — the component wiring the prediction response into the view.

The backend pipeline (Region Aggregator in `utils/tumor_analyzer.py`,
Overlay Compositor in `utils/segmentation_visualizer.py`) is not part of
the available sources, so those components are modelled from the
specification, as marked on each definition.

JavaScript numbers are embedded as `ℚ` (the quantities involved are
exact decimals), JS `undefined`/missing fields as `Option`, and the JS
`x || 0` idiom on a numeric-or-undefined value as `Option.getD 0`.
-/

/-- One entry of the `regions` array of the statistics payload:
a `{name, volume}` pair. -/
structure Region where
  name : String
  volume : ℚ
deriving DecidableEq, Repr

/-- The `statistics` object destructured by `TumorStatistics.js`
(`const { regions, total_volume } = statistics`); either field may be
absent in the JSON payload. -/
structure Statistics where
  regions : Option (List Region)
  total_volume : Option ℚ
deriving DecidableEq, Repr

/-- Embeds `regions?.find(r => r.name === n)?.volume || 0` from
`TumorStatistics.js` (lines 100, 110, 120): the volume of the first
region whose name matches, and 0 when `regions` is absent or holds no
region of that name. -/
def findVolume (regions : Option (List Region)) (n : String) : ℚ :=
  (((regions.getD []).find? (fun r => r.name == n)).map Region.volume).getD 0

/-- One rendered stat card: its label and the displayed volume (cm³). -/
structure StatCardView where
  label : String
  volume : ℚ
deriving DecidableEq, Repr

/-- Embeds the `TumorStatistics` component (`TumorStatistics.js`
lines 83-162): `null` when `statistics` is falsy, otherwise the four
cards built in `cardConfigs` with their lookup names and `total_volume
|| 0`. -/
def tumorStatistics (statistics : Option Statistics) : Option (List StatCardView) :=
  match statistics with
  | none => none
  | some s =>
      some [⟨"Enhancing Tumor", findVolume s.regions "Enhancing Tumor"⟩,
            ⟨"Necrotic Core", findVolume s.regions "Non-Enhancing Tumor"⟩,
            ⟨"Edema", findVolume s.regions "Edema"⟩,
            ⟨"Total Tumor Volume", s.total_volume.getD 0⟩]

/-! ### SegmentationResult viewer controls

`SegmentationResult.js` keeps two pieces of state, `zoom` (initially 1)
and `rotation` (initially 0), updated by the zoom button, the rotate
button and the range slider (`min="0" max="100"`). -/

/-- A user interaction with the viewer controls of
`SegmentationResult.js`: a click on `🔍 Zoom +`, a click on `↻ Rotate`,
or a change of the range slider to integer value `v`. -/
inductive ViewerEvent where
  | zoomIn : ViewerEvent
  | rotate : ViewerEvent
  | slider : Nat → ViewerEvent
deriving DecidableEq, Repr

/-- The React state of `SegmentationResult` (`useState(1)` for zoom,
`useState(0)` for rotation). -/
structure ViewerState where
  zoom : ℚ
  rotation : Nat
deriving DecidableEq, Repr

/-- Initial viewer state: `zoom = 1`, `rotation = 0`. -/
def initViewerState : ViewerState := ⟨1, 0⟩

/-- One state update of `SegmentationResult.js`:
`handleZoomIn` is `Math.min(prev + 0.5, 3)`, `handleRotate` is
`(prev + 90) % 360`, and `handleSliderChange` maps slider value `v`
to `1 + v / 50`. -/
def viewerStep (s : ViewerState) : ViewerEvent → ViewerState
  | .zoomIn => ⟨min (s.zoom + 1/2) 3, s.rotation⟩
  | .rotate => ⟨s.zoom, (s.rotation + 90) % 360⟩
  | .slider v => ⟨1 + (v : ℚ) / 50, s.rotation⟩

/-- The viewer state after a sequence of interactions, starting from the
initial state. -/
def runViewer (evs : List ViewerEvent) : ViewerState :=
  evs.foldl viewerStep initViewerState

/-! ### App.js result wiring -/

/-- One uploaded file as built by `ImageUpload.js` (`base64_file`,
`file_name`, `file_type`). -/
structure UploadedImage where
  base64_file : String
  file_name : String
  file_type : String
deriving DecidableEq, Repr

/-- The fields of the prediction response that `App.js` reads
(lines 350-365): `overlay_image`, `original_image`, `message`,
`statistics`; each may be absent. -/
structure Predictions where
  overlay_image : Option String
  original_image : Option String
  message : Option String
  statistics : Option Statistics
deriving DecidableEq, Repr

/-- JS truthiness of a string-or-undefined value: `undefined` and the
empty string are falsy. -/
def truthyStr : Option String → Bool
  | none => false
  | some s => !(s == "")

/-- Embeds the JS expression `a || b` for a string-or-undefined `a`
with fallback `b`. -/
def jsOrStr (a b : Option String) : Option String :=
  if truthyStr a then a else b

/-- The props handed to the `SegmentationResult` component. -/
structure SegmentationProps where
  originalImage : Option String
  overlayImage : String
  message : Option String
deriving DecidableEq, Repr

/-- Embeds the results-section wiring of `App.js` (lines 354-360): the
`SegmentationResult` view is rendered only when
`predictions.overlay_image` is truthy, and its `originalImage` prop is
`predictions.original_image || images[0]?.base64_file`. -/
def renderedSegmentation (p : Predictions) (images : List UploadedImage) :
    Option SegmentationProps :=
  match p.overlay_image with
  | none => none
  | some o =>
      if o == "" then none
      else some ⟨jsOrStr p.original_image (images.head?.map UploadedImage.base64_file),
                 o, p.message⟩

/-! ## Theorems for the client components -/

/-- Claim C8: `TumorStatistics` renders nothing on a missing `statistics`
prop; otherwise each region card shows the volume of the first region
matching its lookup name and 0 when `regions` is absent or holds no
such region. -/
theorem tumorStatistics_renders (s : Statistics) (n : String) :
    tumorStatistics none = none
    ∧ tumorStatistics (some s) =
        some [⟨"Enhancing Tumor", findVolume s.regions "Enhancing Tumor"⟩,
              ⟨"Necrotic Core", findVolume s.regions "Non-Enhancing Tumor"⟩,
              ⟨"Edema", findVolume s.regions "Edema"⟩,
              ⟨"Total Tumor Volume", s.total_volume.getD 0⟩]
    ∧ (s.regions = none → findVolume s.regions n = 0)
    ∧ (∀ rs r, s.regions = some rs → rs.find? (fun x => x.name == n) = some r →
        findVolume s.regions n = r.volume)
    ∧ (∀ rs, s.regions = some rs → rs.find? (fun x => x.name == n) = none →
        findVolume s.regions n = 0) := by
  refine ⟨rfl, rfl, ?_, ?_, ?_⟩
  · intro h
    simp [findVolume, h]
  · intro rs r hrs hf
    simp [findVolume, hrs, hf]
  · intro rs hf hnone
    simp [findVolume, hf, hnone]

/-- Witness for `tumorStatistics_renders` at a concrete statistics
object with one Edema region and no matching Enhancing Tumor region. -/
theorem tumorStatistics_renders_witness :
    findVolume (some [⟨"Edema", 2⟩]) "Edema" = (⟨"Edema", (2 : ℚ)⟩ : Region).volume
    ∧ findVolume (some [⟨"Edema", 2⟩]) "Enhancing Tumor" = 0 := by
  have h := tumorStatistics_renders ⟨some [⟨"Edema", 2⟩], none⟩ "Edema"
  have h2 := tumorStatistics_renders ⟨some [⟨"Edema", 2⟩], none⟩ "Enhancing Tumor"
  exact ⟨h.2.2.2.1 [⟨"Edema", 2⟩] ⟨"Edema", 2⟩ rfl (by decide),
         h2.2.2.2.2 [⟨"Edema", 2⟩] rfl (by decide)⟩

/-- The invariant maintained by the `SegmentationResult` viewer state:
the zoom factor lies in `[1, 3]` and the rotation is one of the four
right-angle positions. -/
def viewerInv (s : ViewerState) : Prop :=
  1 ≤ s.zoom ∧ s.zoom ≤ 3
    ∧ (s.rotation = 0 ∨ s.rotation = 90 ∨ s.rotation = 180 ∨ s.rotation = 270)

theorem viewerStep_preserves (s : ViewerState) (e : ViewerEvent)
    (hs : viewerInv s) (he : ∀ v, e = ViewerEvent.slider v → v ≤ 100) :
    viewerInv (viewerStep s e) := by
  obtain ⟨h1, h2, h3⟩ := hs
  cases e with
  | zoomIn =>
      refine ⟨le_min (by linarith) (by norm_num), min_le_right _ _, h3⟩
  | rotate =>
      refine ⟨h1, h2, ?_⟩
      rcases h3 with h | h | h | h <;> simp [viewerStep, h]
  | slider v =>
      have hv : (v : ℚ) ≤ 100 := by exact_mod_cast he v rfl
      have hv0 : (0 : ℚ) ≤ (v : ℚ) := Nat.cast_nonneg v
      exact ⟨by simp [viewerStep]; linarith, by simp [viewerStep]; linarith, h3⟩

theorem viewer_foldl_inv (evs : List ViewerEvent) (s : ViewerState)
    (hs : viewerInv s) (he : ∀ v, ViewerEvent.slider v ∈ evs → v ≤ 100) :
    viewerInv (evs.foldl viewerStep s) := by
  induction evs generalizing s with
  | nil => exact hs
  | cons e rest ih =>
      refine ih (viewerStep s e) ?_ ?_
      · exact viewerStep_preserves s e hs (fun v hv => he v (hv ▸ List.mem_cons_self _ _))
      · exact fun v hv => he v (List.mem_cons_of_mem _ hv)

/-- Claim C9: over any sequence of zoom-button clicks, rotate-button clicks
and slider changes with values in `[0, 100]`, the zoom factor of the viewer
stays in `[1, 3]` and its rotation stays in `{0, 90, 180, 270}`. -/
theorem viewer_controls_invariant (evs : List ViewerEvent)
    (he : ∀ v, ViewerEvent.slider v ∈ evs → v ≤ 100) :
    1 ≤ (runViewer evs).zoom ∧ (runViewer evs).zoom ≤ 3
    ∧ ((runViewer evs).rotation = 0 ∨ (runViewer evs).rotation = 90
        ∨ (runViewer evs).rotation = 180 ∨ (runViewer evs).rotation = 270) :=
  viewer_foldl_inv evs initViewerState
    ⟨by norm_num [initViewerState], by norm_num [initViewerState], Or.inl rfl⟩ he

/-- Witness for `viewer_controls_invariant` on a concrete interaction
sequence: zoom in twice, move the slider to 80, rotate three times. -/
theorem viewer_controls_invariant_witness :
    1 ≤ (runViewer [.zoomIn, .zoomIn, .slider 80, .rotate, .rotate, .rotate]).zoom
    ∧ (runViewer [.zoomIn, .zoomIn, .slider 80, .rotate, .rotate, .rotate]).zoom ≤ 3
    ∧ ((runViewer [.zoomIn, .zoomIn, .slider 80, .rotate, .rotate, .rotate]).rotation = 0
        ∨ (runViewer [.zoomIn, .zoomIn, .slider 80, .rotate, .rotate, .rotate]).rotation = 90
        ∨ (runViewer [.zoomIn, .zoomIn, .slider 80, .rotate, .rotate, .rotate]).rotation = 180
        ∨ (runViewer [.zoomIn, .zoomIn, .slider 80, .rotate, .rotate, .rotate]).rotation = 270) :=
  viewer_controls_invariant [.zoomIn, .zoomIn, .slider 80, .rotate, .rotate, .rotate]
    (by intro v hv; simp at hv; omega)

/-- Claim C10: when the prediction response has no `original_image` field but
does carry a truthy `overlay_image`, the rendered results view falls
back to the base64 data of the first uploaded image for the original-image
pane. -/
theorem original_image_fallback (p : Predictions) (o : String)
    (img : UploadedImage) (rest : List UploadedImage)
    (h1 : p.original_image = none) (h2 : p.overlay_image = some o) (h3 : o ≠ "") :
    renderedSegmentation p (img :: rest) = some ⟨some img.base64_file, o, p.message⟩ := by
  simp [renderedSegmentation, h1, h2, h3, jsOrStr, truthyStr]

/-- Witness for `original_image_fallback`: a response with an overlay
but no original image, and one uploaded file. -/
theorem original_image_fallback_witness :
    renderedSegmentation ⟨some "ov", none, some "msg", none⟩ [⟨"b64", "scan.nii", "t"⟩]
      = some ⟨some "b64", "ov", some "msg"⟩ :=
  original_image_fallback ⟨some "ov", none, some "msg", none⟩ "ov"
    ⟨"b64", "scan.nii", "t"⟩ [] rfl rfl (by decide)

/-! ## Region Aggregator

The aggregator lives in `utils/tumor_analyzer.py`, which is not among
the available sources; it is modelled from the specification (§4.1). -/

/-- The error kinds of the core pipeline (spec §7): `DataError` for
corrupt label maps or mismatched dimensions, `ConfigurationError` for a
missing voxel spacing. -/
inductive CoreError where
  | DataError : String → CoreError
  | ConfigurationError : String → CoreError
deriving DecidableEq, Repr

/-- Physical size of one array cell along each axis, in mm
(spec §3, `VoxelSpacing`). -/
def VoxelSpacing : Type := ℚ × ℚ × ℚ

/-- Modelled from the spec: the number of defined tumor classes
(`K = 3`, spec §3). -/
def K : Nat := 3

/-- Modelled from the spec: the fixed order and catalog names of the
non-background region classes (spec §3 and §8), with class labels
`Edema = 1`, `Non-Enhancing/Necrotic Core = 2`, `Enhancing Tumor = 3`. -/
def regionNames : List String :=
  ["Edema", "Non-Enhancing/Necrotic Core", "Enhancing Tumor"]

/-- Modelled from the spec: a `{name, volume}` entry of the
output of the aggregator (spec §3, `RegionStatistic`; volume in cm³). -/
structure RegionStatistic where
  name : String
  volume : ℚ
deriving DecidableEq, Repr

/-- Modelled from the spec: the statistics part of an `AnalysisResult`
(spec §3): the ordered region list and the total volume. -/
structure AnalysisStats where
  regions : List RegionStatistic
  total_volume : ℚ
deriving DecidableEq, Repr

/-- Modelled from the spec: the physical volume of one voxel, the
product of the per-axis spacings (spec §4.1). -/
def voxelVolume (s : ℚ × ℚ × ℚ) : ℚ := s.1 * s.2.1 * s.2.2

/-- Modelled from the spec: the volume of one class in cm³, the count
of voxels carrying that label times the voxel volume in mm³, divided by
1000 (spec §4.1). -/
def volumeOfClass (labels : List Nat) (spacing : ℚ × ℚ × ℚ) (c : Nat) : ℚ :=
  (labels.count c : ℚ) * voxelVolume spacing / 1000

/-- Modelled from the spec: the fixed-order region list of the
aggregator, one entry per non-background class (spec §4.1). -/
def tumorRegions (labels : List Nat) (spacing : ℚ × ℚ × ℚ) : List RegionStatistic :=
  [⟨"Edema", volumeOfClass labels spacing 1⟩,
   ⟨"Non-Enhancing/Necrotic Core", volumeOfClass labels spacing 2⟩,
   ⟨"Enhancing Tumor", volumeOfClass labels spacing 3⟩]

/-- Modelled from the spec: the Region Aggregator of
`utils/tumor_analyzer.py` (spec §4.1). The label map is taken in
flattened voxel order; a value outside `[0, K]` is a `DataError`,
otherwise the result lists the three per-class volumes in fixed order
and totals them from the per-region statistics (single source of
truth). -/
def analyzeTumor (labels : List Nat) (spacing : ℚ × ℚ × ℚ) :
    Except CoreError AnalysisStats :=
  if labels.all (fun v => v ≤ K) then
    Except.ok ⟨tumorRegions labels spacing,
               ((tumorRegions labels spacing).map RegionStatistic.volume).sum⟩
  else
    Except.error (CoreError.DataError "LabelMap value outside the class range")

/-- Claim C1: on any in-range label map, the volume of each non-background class
is its voxel count times the physical voxel volume, divided by
1000 to convert mm³ to cm³; and on the all-Edema `(10,10,10)` map with
spacing `(1,1,1)` the result is Edema 1 cm³, the others 0, total 1. -/
theorem regionAggregator_volumes (labels : List Nat) (spacing : ℚ × ℚ × ℚ)
    (h : labels.all (fun v => v ≤ K) = true) :
    analyzeTumor labels spacing = Except.ok
      ⟨[⟨"Edema", (labels.count 1 : ℚ) * voxelVolume spacing / 1000⟩,
        ⟨"Non-Enhancing/Necrotic Core", (labels.count 2 : ℚ) * voxelVolume spacing / 1000⟩,
        ⟨"Enhancing Tumor", (labels.count 3 : ℚ) * voxelVolume spacing / 1000⟩],
       (labels.count 1 : ℚ) * voxelVolume spacing / 1000
         + (labels.count 2 : ℚ) * voxelVolume spacing / 1000
         + (labels.count 3 : ℚ) * voxelVolume spacing / 1000⟩
    ∧ analyzeTumor (List.replicate 1000 1) (1, 1, 1) = Except.ok
      ⟨[⟨"Edema", 1⟩, ⟨"Non-Enhancing/Necrotic Core", 0⟩, ⟨"Enhancing Tumor", 0⟩], 1⟩ := by
  constructor
  · simp only [analyzeTumor, h, if_true, tumorRegions, volumeOfClass,
      List.map_cons, List.map_nil, List.sum_cons, List.sum_nil]
    norm_num
    ring
  · have hall : (List.replicate 1000 1).all (fun v => v ≤ K) = true := by
      rw [List.all_eq_true]
      intro x hx
      rcases List.eq_of_mem_replicate hx with rfl
      decide
    simp only [analyzeTumor, hall, if_true, tumorRegions, volumeOfClass,
      List.map_cons, List.map_nil, List.sum_cons, List.sum_nil,
      List.count_replicate, voxelVolume]
    norm_num

/-- Witness for `regionAggregator_volumes` at a small concrete label
map and a non-unit spacing. -/
theorem regionAggregator_volumes_witness :
    analyzeTumor [1, 2, 2] (2, 3, 5) = Except.ok
      ⟨[⟨"Edema", (([1, 2, 2] : List Nat).count 1 : ℚ) * voxelVolume (2, 3, 5) / 1000⟩,
        ⟨"Non-Enhancing/Necrotic Core",
          (([1, 2, 2] : List Nat).count 2 : ℚ) * voxelVolume (2, 3, 5) / 1000⟩,
        ⟨"Enhancing Tumor",
          (([1, 2, 2] : List Nat).count 3 : ℚ) * voxelVolume (2, 3, 5) / 1000⟩],
       (([1, 2, 2] : List Nat).count 1 : ℚ) * voxelVolume (2, 3, 5) / 1000
         + (([1, 2, 2] : List Nat).count 2 : ℚ) * voxelVolume (2, 3, 5) / 1000
         + (([1, 2, 2] : List Nat).count 3 : ℚ) * voxelVolume (2, 3, 5) / 1000⟩
    ∧ analyzeTumor (List.replicate 1000 1) (1, 1, 1) = Except.ok
      ⟨[⟨"Edema", 1⟩, ⟨"Non-Enhancing/Necrotic Core", 0⟩, ⟨"Enhancing Tumor", 0⟩], 1⟩ :=
  regionAggregator_volumes [1, 2, 2] (2, 3, 5) (by decide)

/-- Claim C2: on any accepted input, the `total_volume` of the aggregator is
exactly the sum of the per-region volumes (so in particular within any
fixed epsilon), derived from the per-region statistics. -/
theorem total_volume_is_region_sum (labels : List Nat) (spacing : ℚ × ℚ × ℚ)
    (stats : AnalysisStats) (h : analyzeTumor labels spacing = Except.ok stats) :
    stats.total_volume = (stats.regions.map RegionStatistic.volume).sum := by
  unfold analyzeTumor at h
  split at h
  · cases h
    rfl
  · cases h

/-- Witness for `total_volume_is_region_sum` at a concrete label map. -/
theorem total_volume_is_region_sum_witness :
    (AnalysisStats.mk (tumorRegions [0, 1, 3] (1, 1, 1))
        (((tumorRegions [0, 1, 3] (1, 1, 1)).map RegionStatistic.volume).sum)).total_volume
      = (((AnalysisStats.mk (tumorRegions [0, 1, 3] (1, 1, 1))
            (((tumorRegions [0, 1, 3] (1, 1, 1)).map RegionStatistic.volume).sum)).regions.map
          RegionStatistic.volume).sum) :=
  total_volume_is_region_sum [0, 1, 3] (1, 1, 1) _ (by rw [analyzeTumor, if_pos (by decide)])

/-- Claim C3: on any accepted input the region list has exactly three
entries, named in the fixed catalog order, and a class absent from the
label map still has its entry, with volume 0. -/
theorem region_list_fixed_order (labels : List Nat) (spacing : ℚ × ℚ × ℚ)
    (stats : AnalysisStats) (h : analyzeTumor labels spacing = Except.ok stats) :
    stats.regions.length = 3
    ∧ stats.regions.map RegionStatistic.name = regionNames
    ∧ ∀ i, i < 3 → (i + 1) ∉ labels → (stats.regions.getD i ⟨"", 0⟩).volume = 0 := by
  unfold analyzeTumor at h
  split at h
  case isFalse => cases h
  case isTrue =>
    cases h
    refine ⟨rfl, rfl, ?_⟩
    intro i hi habs
    have hcount : labels.count (i + 1) = 0 := List.count_eq_zero.mpr habs
    interval_cases i <;>
      simp [tumorRegions, volumeOfClass, hcount]

/-- Witness for `region_list_fixed_order` at a label map where class 2
(`Non-Enhancing/Necrotic Core`) is absent. -/
theorem region_list_fixed_order_witness :
    (AnalysisStats.mk (tumorRegions [1, 1, 3] (1, 1, 1))
        (((tumorRegions [1, 1, 3] (1, 1, 1)).map RegionStatistic.volume).sum)).regions.length = 3
    ∧ (AnalysisStats.mk (tumorRegions [1, 1, 3] (1, 1, 1))
        (((tumorRegions [1, 1, 3] (1, 1, 1)).map RegionStatistic.volume).sum)).regions.map
          RegionStatistic.name = regionNames
    ∧ ∀ i, i < 3 → (i + 1) ∉ ([1, 1, 3] : List Nat) →
        ((AnalysisStats.mk (tumorRegions [1, 1, 3] (1, 1, 1))
          (((tumorRegions [1, 1, 3] (1, 1, 1)).map RegionStatistic.volume).sum)).regions.getD
            i ⟨"", 0⟩).volume = 0 :=
  region_list_fixed_order [1, 1, 3] (1, 1, 1) _ (by rw [analyzeTumor, if_pos (by decide)])

/-- Claim C5: any label map holding a value above `K` makes the
aggregator fail with a `DataError`; no statistics record is produced,
so no out-of-range voxel is aggregated into an existing bucket. -/
theorem out_of_range_label_rejected (labels : List Nat) (spacing : ℚ × ℚ × ℚ)
    (h : ∃ v ∈ labels, K < v) :
    analyzeTumor labels spacing
      = Except.error (CoreError.DataError "LabelMap value outside the class range")
    ∧ ∀ stats, analyzeTumor labels spacing ≠ Except.ok stats := by
  obtain ⟨v, hv, hKv⟩ := h
  have hfalse : ¬(labels.all (fun v => v ≤ K) = true) := by
    intro hall
    have := List.all_eq_true.mp hall v hv
    exact absurd (of_decide_eq_true this) (not_le.mpr hKv)
  refine ⟨?_, ?_⟩
  · rw [analyzeTumor, if_neg hfalse]
  · intro stats hok
    rw [analyzeTumor, if_neg hfalse] at hok
    cases hok

/-- Witness for `out_of_range_label_rejected` at a label map holding
the out-of-range value `K + 1 = 4`. -/
theorem out_of_range_label_rejected_witness :
    analyzeTumor [1, 4] (1, 1, 1)
      = Except.error (CoreError.DataError "LabelMap value outside the class range")
    ∧ ∀ stats, analyzeTumor [1, 4] (1, 1, 1) ≠ Except.ok stats :=
  out_of_range_label_rejected [1, 4] (1, 1, 1) ⟨4, by decide, by decide⟩

/-! ## Overlay Compositor

The compositor lives in `utils/segmentation_visualizer.py`, which is
not among the available sources; it is modelled from the specification
(§4.2), with the fixed class colors taken from the legend of
`SegmentationResult.js` (red `#ff4444`, yellow `#ffff44`,
green `#44ff44`). -/

/-- Modelled from the spec: the fixed display color of each class
(spec §3): Edema green, Non-Enhancing/Necrotic Core yellow, Enhancing
Tumor red; background and anything else black. -/
def classColor : Nat → ℚ × ℚ × ℚ
  | 1 => (68, 255, 68)
  | 2 => (255, 255, 68)
  | 3 => (255, 68, 68)
  | _ => (0, 0, 0)

/-- Round-half-up of a rational to an integer (spec §4.2). -/
def roundHalfUp (q : ℚ) : ℤ := ⌊q + 1 / 2⌋

/-- Clamp an integer channel value to `[0, 255]` (spec §4.2). -/
def clampChannel (z : ℤ) : ℤ := min 255 (max 0 z)

/-- Modelled from the spec: one blended channel,
`(1 - α)·g + α·c` rounded half-up and clamped (spec §4.2). -/
def blendChannel (α : ℚ) (g : Nat) (c : ℚ) : ℤ :=
  clampChannel (roundHalfUp ((1 - α) * (g : ℚ) + α * c))

/-- Modelled from the spec: one output pixel of the compositor
(spec §4.2): a background pixel keeps its grayscale value replicated
across the three channels; a non-background pixel is blended with its
class color at opacity `α`. -/
def blendPixel (α : ℚ) (g : Nat) (l : Nat) : ℤ × ℤ × ℤ :=
  if l = 0 then ((g : ℤ), (g : ℤ), (g : ℤ))
  else (blendChannel α g (classColor l).1,
        blendChannel α g (classColor l).2.1,
        blendChannel α g (classColor l).2.2)

/-- Whether the base image and the label slice have identical spatial
dimensions: same row count and rows of pairwise equal length. -/
def sameDims (base labelSlice : List (List Nat)) : Bool :=
  base.length == labelSlice.length
    && (base.zip labelSlice).all (fun p => p.1.length == p.2.length)

/-- Modelled from the spec: the Overlay Compositor of
`utils/segmentation_visualizer.py` (spec §4.2): a dimension mismatch
between base image and label slice is a `DataError`; otherwise every
pixel is blended with `blendPixel`. -/
def compositeOverlay (α : ℚ) (base labelSlice : List (List Nat)) :
    Except CoreError (List (List (ℤ × ℤ × ℤ))) :=
  if sameDims base labelSlice then
    Except.ok (List.zipWith (fun br lr => List.zipWith (blendPixel α) br lr) base labelSlice)
  else
    Except.error (CoreError.DataError "base image and label slice dimensions differ")

/-- The pixel of a row-major image at row `i`, column `j`, when both
indices are in range. -/
def pixelAt {A : Type} (img : List (List A)) (i j : Nat) : Option A :=
  (img.get? i).bind (fun row => row.get? j)

theorem zipWith_get?_eq {A B C : Type} (f : A → B → C) (as : List A) (bs : List B)
    (i : Nat) (a : A) (b : B) (ha : as.get? i = some a) (hb : bs.get? i = some b) :
    (List.zipWith f as bs).get? i = some (f a b) := by
  induction as generalizing bs i with
  | nil => cases ha
  | cons x xs ih =>
      cases bs with
      | nil => cases hb
      | cons y ys =>
          cases i with
          | zero =>
              cases ha
              cases hb
              rfl
          | succ n =>
              simpa using ih ys n (by simpa using ha) (by simpa using hb)

/-- Claim C6: whenever the base image and the label slice differ in
spatial dimensions, the compositor fails with a `DataError` and
produces no output image (so nothing is cropped, resized or
resampled). -/
theorem overlay_dimension_mismatch (α : ℚ) (base labelSlice : List (List Nat))
    (h : sameDims base labelSlice = false) :
    compositeOverlay α base labelSlice
      = Except.error (CoreError.DataError "base image and label slice dimensions differ")
    ∧ ∀ out, compositeOverlay α base labelSlice ≠ Except.ok out := by
  refine ⟨by rw [compositeOverlay, if_neg (by simp [h])], ?_⟩
  intro out hok
  rw [compositeOverlay, if_neg (by simp [h])] at hok
  cases hok

/-- Witness for `overlay_dimension_mismatch`: a 1×1 base image and a
2×1 label slice. -/
theorem overlay_dimension_mismatch_witness :
    compositeOverlay (2 / 5) [[7]] [[0], [0]]
      = Except.error (CoreError.DataError "base image and label slice dimensions differ")
    ∧ ∀ out, compositeOverlay (2 / 5) [[7]] [[0], [0]] ≠ Except.ok out :=
  overlay_dimension_mismatch (2 / 5) [[7]] [[0], [0]] (by decide)

/-- Claim C7: for any blending alpha, any pixel whose label is
background (0) comes out of the compositor as the original grayscale
value replicated across the three channels. -/
theorem overlay_background_unchanged (α : ℚ) (base labelSlice : List (List Nat))
    (out : List (List (ℤ × ℤ × ℤ))) (i j g : Nat)
    (hok : compositeOverlay α base labelSlice = Except.ok out)
    (hl : pixelAt labelSlice i j = some 0)
    (hg : pixelAt base i j = some g) :
    pixelAt out i j = some ((g : ℤ), (g : ℤ), (g : ℤ)) := by
  unfold compositeOverlay at hok
  split at hok
  case isFalse => cases hok
  case isTrue =>
    cases hok
    obtain ⟨lrow, hlrow, hl0⟩ := Option.bind_eq_some.mp hl
    obtain ⟨brow, hbrow, hbg⟩ := Option.bind_eq_some.mp hg
    have hrow := zipWith_get?_eq (fun br lr => List.zipWith (blendPixel α) br lr)
      base labelSlice i brow lrow hbrow hlrow
    have hpix := zipWith_get?_eq (blendPixel α) brow lrow j g 0 hbg hl0
    unfold pixelAt
    rw [hrow]
    show (List.zipWith (blendPixel α) brow lrow).get? j = _
    rw [hpix]
    rfl

/-- Witness for `overlay_background_unchanged`: a single background
pixel of grayscale value 7 under alpha `2/5`. -/
theorem overlay_background_unchanged_witness :
    pixelAt [[((7 : ℤ), (7 : ℤ), (7 : ℤ))]] 0 0 = some ((7 : ℤ), (7 : ℤ), (7 : ℤ)) :=
  overlay_background_unchanged (2 / 5) [[7]] [[0]] [[((7 : ℤ), (7 : ℤ), (7 : ℤ))]] 0 0 7
    rfl rfl rfl

/-! ## Response layout consumed by the presentation layer

To settle where `regions` and `total_volume` live in the wire record,
the JSON response is embedded as a string-keyed tree, and the dynamic
field accesses of `App.js` are embedded over it. -/

/-- A JSON-like value of the prediction response. -/
inductive JVal where
  | jNull : JVal
  | jStr : String → JVal
  | jNum : ℚ → JVal
  | jArr : List JVal → JVal
  | jObj : List (String × JVal) → JVal
deriving Repr

/-- The value of field `k` of a JSON object (`undefined` on any other
shape or a missing key), as JS property access reads it. -/
def getField : JVal → String → Option JVal
  | .jObj fields, k => (fields.find? (fun p => p.1 == k)).map Prod.snd
  | _, _ => none

/-- JS truthiness of a JSON value: `null`, the empty string and the
number 0 are falsy; arrays and objects are truthy. -/
def truthy : JVal → Bool
  | .jNull => false
  | .jStr s => !(s == "")
  | .jNum q => !(q == 0)
  | .jArr _ => true
  | .jObj _ => true

/-- Embeds `App.js` lines 362-364
(`predictions.statistics && <TumorStatistics statistics={predictions.statistics} />`):
the value handed to the statistics view, which exists exactly when the
`statistics` field of the response is truthy. -/
def statisticsPassedToView (resp : JVal) : Option JVal :=
  match getField resp "statistics" with
  | some v => if truthy v then some v else none
  | none => none

/-- A response shaped as claim C4 describes the `AnalysisResult`:
`regions` and `total_volume` are fields of the record itself, next to
`overlay_image`, `original_image` and `message`. -/
def flatAnalysisResult : JVal :=
  .jObj [("regions", .jArr [.jObj [("name", .jStr "Edema"), ("volume", .jNum 1)]]),
         ("total_volume", .jNum 1),
         ("overlay_image", .jStr "overlay-b64"),
         ("original_image", .jStr "original-b64"),
         ("message", .jStr "Tumor detected")]

/-- Counterexample to claim C4: a response carrying `regions` and
`total_volume` as fields of the result record itself (next to
`overlay_image`, `original_image`, `message`) has all those fields
present, yet the presentation layer passes no statistics to the
`TumorStatistics` view — `App.js` only ever reads the nested
`statistics` field. -/
theorem flat_result_fields_not_consumed :
    (getField flatAnalysisResult "regions").isSome = true
    ∧ (getField flatAnalysisResult "total_volume").isSome = true
    ∧ (getField flatAnalysisResult "overlay_image").isSome = true
    ∧ (getField flatAnalysisResult "original_image").isSome = true
    ∧ (getField flatAnalysisResult "message").isSome = true
    ∧ statisticsPassedToView flatAnalysisResult = none :=
  ⟨rfl, rfl, rfl, rfl, rfl, rfl⟩

/-- Claim C4 as amended: the statistics reach the presentation layer
inside a nested `statistics` field of the response; whenever that field
is present and truthy, `App.js` passes exactly its value to the
`TumorStatistics` view (which then reads `regions` and `total_volume`
from it). -/
theorem statistics_consumed_from_nested_field (resp s : JVal)
    (h1 : getField resp "statistics" = some s) (h2 : truthy s = true) :
    statisticsPassedToView resp = some s := by
  simp [statisticsPassedToView, h1, h2]

/-- Witness for `statistics_consumed_from_nested_field` at a concrete
response whose statistics are nested under `statistics`. -/
theorem statistics_consumed_from_nested_field_witness :
    statisticsPassedToView
        (.jObj [("overlay_image", .jStr "overlay-b64"),
                ("statistics",
                 .jObj [("regions", .jArr [.jObj [("name", .jStr "Edema"), ("volume", .jNum 1)]]),
                        ("total_volume", .jNum 1)])])
      = some (.jObj [("regions", .jArr [.jObj [("name", .jStr "Edema"), ("volume", .jNum 1)]]),
                     ("total_volume", .jNum 1)]) :=
  statistics_consumed_from_nested_field
    (.jObj [("overlay_image", .jStr "overlay-b64"),
            ("statistics",
             .jObj [("regions", .jArr [.jObj [("name", .jStr "Edema"), ("volume", .jNum 1)]]),
                    ("total_volume", .jNum 1)])])
    (.jObj [("regions", .jArr [.jObj [("name", .jStr "Edema"), ("volume", .jNum 1)]]),
            ("total_volume", .jNum 1)])
    rfl rfl
